import Mathlib

/-!
Shallow embedding of the snowboy node binding (src/lib/node/index.ts):
the hotword model registry (class HotwordModels) and the detection
dispatcher (class SnowboyDetect).  JavaScript numbers appearing as
detection indices and gains are embedded as Int; thrown JavaScript
exceptions are embedded as an explicit error type; the mutable `this`
state is passed explicitly; the native engine is an oracle parameter
and every call into it is recorded in a trace.
-/

/-- A thrown JavaScript exception.  `jsError msg` embeds `throw new Error(msg)`;
`typeError msg` embeds the runtime TypeError raised when a property such as
`.length` is read from `undefined`. -/
inductive JsError where
  | jsError (msg : String)
  | typeError (msg : String)
deriving DecidableEq, Repr

/-- The `hotwords` field of a model declaration: TypeScript type
`string | Array<string>`. -/
inductive Hotwords where
  | single (s : String)
  | list (l : List String)
deriving DecidableEq, Repr

/-- interface HotwordModel: resource file path, optional sensitivity,
and one or more hotword labels. -/
structure HotwordModel where
  file : String
  sensitivity : Option String
  hotwords : Hotwords
deriving DecidableEq, Repr

/-- JavaScript `[].concat(x)`: a string becomes a one-element array, an
array is copied element-wise. -/
def normalizeHotwords : Hotwords → List String
  | .single s => [s]
  | .list l => l

/-- JavaScript `acc.concat(model.hotwords)` inside the lookup-table reduce:
concat appends a string as one element and an array element-wise. -/
def concatHotwords (acc : List String) : Hotwords → List String
  | .single s => acc ++ [s]
  | .list l => acc ++ l

/-- State of class HotwordModels: the ordered model list and the private
`lookupTable` field, which is `undefined` (here `none`) until the first
successful `add` assigns it. -/
structure HotwordModels where
  models : List HotwordModel
  lookupTable : Option (List String)
deriving DecidableEq, Repr

/-- A freshly constructed HotwordModels: empty model list, lookupTable
still undefined. -/
def HotwordModels.fresh : HotwordModels := ⟨[], none⟩

/-- private generateHotwordsLookupTable(): reduce over models concatenating
each model.hotwords onto the accumulator, starting from an empty array. -/
def generateHotwordsLookupTable (models : List HotwordModel) : List String :=
  models.foldl (fun acc m => concatHotwords acc m.hotwords) []

/-- The outcome of one `add(model)` call: the caller-visible model object
after the call (the source mutates its `hotwords` field in place), the
registry state after the call, and the exception thrown, if any. -/
structure AddOutcome where
  model : HotwordModel
  registry : HotwordModels
  thrown : Option JsError
deriving DecidableEq, Repr

/-- add(model): first overwrites `model.hotwords` with `[].concat(model.hotwords)`,
then throws if `fs.existsSync(model.file)` is false, otherwise pushes the model
and regenerates the lookup table.  The file-system check `fs.existsSync` is the
oracle parameter `fsExists`. -/
def HotwordModels.add (r : HotwordModels) (fsExists : String → Bool)
    (m : HotwordModel) : AddOutcome :=
  let model : HotwordModel := { m with hotwords := Hotwords.list (normalizeHotwords m.hotwords) }
  if fsExists model.file = false then
    ⟨model, r, some (JsError.jsError ("Model " ++ model.file ++ " does not exists."))⟩
  else
    let models := r.models ++ [model]
    ⟨model, ⟨models, some (generateHotwordsLookupTable models)⟩, none⟩

/-- get modelString(): comma-joined model file paths (Array.prototype.join
with the default separator). -/
def HotwordModels.modelString (r : HotwordModels) : String :=
  String.intercalate "," (r.models.map (fun m => m.file))

/-- get sensitivityString(): comma-joined sensitivities; join renders an
undefined entry as the empty string. -/
def HotwordModels.sensitivityString (r : HotwordModels) : String :=
  String.intercalate "," (r.models.map (fun m => m.sensitivity.getD ""))

/-- lookup(index): the source condition is `index < 0 || this.lookupTable.length`,
evaluated left to right.  When lookupTable is still undefined, a negative index
throws Error and any other index raises a TypeError reading `.length`.  When
lookupTable is an array, the condition is index negativity or TRUTHINESS of the
length, and the final `this.lookupTable[index]` yields undefined (here `none`)
out of range. -/
def HotwordModels.lookup (r : HotwordModels) (index : Int) :
    Except JsError (Option String) :=
  match r.lookupTable with
  | none =>
      if index < 0 then Except.error (JsError.jsError "Index out of bounds.")
      else Except.error (JsError.typeError "Cannot read properties of undefined (reading length)")
  | some table =>
      if index < 0 ∨ table.length ≠ 0 then
        Except.error (JsError.jsError "Index out of bounds.")
      else
        Except.ok (table.get? index.toNat)

/-- numHotwords(): `this.lookupTable.length`; a TypeError when lookupTable
is still undefined. -/
def HotwordModels.numHotwords (r : HotwordModels) : Except JsError Nat :=
  match r.lookupTable with
  | none => Except.error (JsError.typeError "Cannot read properties of undefined (reading length)")
  | some table => Except.ok table.length

/-- The DetectionResult enum values of the source. -/
def DetectionResult.SILENCE : Int := -2

/-- DetectionResult.ERROR. -/
def DetectionResult.ERROR : Int := -1

/-- DetectionResult.NOISE. -/
def DetectionResult.NOISE : Int := 0

/-- The native engine as a pure oracle: its reported hotword count and the
index it returns for a given buffer. -/
structure NativeEngine where
  numHotwords : Nat
  detect : List Int → Int

/-- One call into the native engine, recorded in traces. -/
inductive NativeCall where
  | construct (resource : String) (modelStr : String)
  | numHotwordsCall
  | runDetectionCall (buffer : List Int)
  | setAudioGain (gain : Int)
deriving DecidableEq, Repr

/-- Number of NumHotwords calls in a native-call trace. -/
def countNumHotwordsCalls (calls : List NativeCall) : Nat :=
  calls.foldl (fun acc c => match c with | NativeCall.numHotwordsCall => acc + 1 | _ => acc) 0

/-- Number of SetAudioGain calls in a native-call trace. -/
def countSetAudioGainCalls (calls : List NativeCall) : Nat :=
  calls.foldl (fun acc c => match c with | NativeCall.setAudioGain _ => acc + 1 | _ => acc) 0

/-- interface DetectorOptions. -/
structure DetectorOptions where
  resource : String
  models : HotwordModels
  audioGain : Option Int

/-- State of a constructed SnowboyDetect: the native instance and the
registry it interprets results with. -/
structure SnowboyDetect where
  engine : NativeEngine
  models : HotwordModels

/-- An event emitted by the dispatcher: the source emits the named events
error, silence and noise with no payload, and hotword with the looked-up
label as payload (the label can be undefined, hence Option). -/
inductive DetectionEvent where
  | error
  | silence
  | noise
  | hotword (label : Option String)
deriving DecidableEq, Repr

/-- The SnowboyDetect constructor: builds the native instance from the
resource path and modelString, compares the engine-reported hotword count
with `options.models.numHotwords()` (throwing on mismatch, and propagating
the TypeError when the registry count itself throws), then applies
`options.audioGain` only when it is TRUTHY (present and nonzero).
Returns the native-call trace and the constructed detector or the thrown
exception. -/
def SnowboyDetect.construct (engine : NativeEngine) (options : DetectorOptions) :
    List NativeCall × Except JsError SnowboyDetect :=
  let c := NativeCall.construct options.resource options.models.modelString
  match options.models.numHotwords with
  | Except.error e => ([c, NativeCall.numHotwordsCall], Except.error e)
  | Except.ok n =>
    if engine.numHotwords ≠ n then
      ([c, NativeCall.numHotwordsCall],
        Except.error (JsError.jsError "Loaded hotwords count does not match number of hotwords defined."))
    else
      match options.audioGain with
      | some g =>
          if g = 0 then
            ([c, NativeCall.numHotwordsCall], Except.ok ⟨engine, options.models⟩)
          else
            ([c, NativeCall.numHotwordsCall, NativeCall.setAudioGain g],
              Except.ok ⟨engine, options.models⟩)
      | none => ([c, NativeCall.numHotwordsCall], Except.ok ⟨engine, options.models⟩)

/-- private processDetectionResult(index): the switch over the
DetectionResult enum; the default branch performs `this.models.lookup(index)`
(with the raw index) and emits the hotword event, and an exception thrown by
lookup aborts the call with no event emitted.  Returns the list of emitted
events and the thrown exception, if any. -/
def processDetectionResult (models : HotwordModels) (index : Int) :
    List DetectionEvent × Option JsError :=
  if index = DetectionResult.ERROR then ([DetectionEvent.error], none)
  else if index = DetectionResult.SILENCE then ([DetectionEvent.silence], none)
  else if index = DetectionResult.NOISE then ([DetectionEvent.noise], none)
  else
    match models.lookup index with
    | Except.error e => ([], some e)
    | Except.ok h => ([DetectionEvent.hotword h], none)

/-- runDetection(buffer): forwards the buffer to the native engine, processes
the returned index, and returns it; an exception thrown during processing
propagates, so the index is not returned.  Result: the native-call trace,
the emitted events, and the returned index or thrown exception. -/
def SnowboyDetect.runDetection (d : SnowboyDetect) (buffer : List Int) :
    List NativeCall × List DetectionEvent × Except JsError Int :=
  let index := d.engine.detect buffer
  let pr := processDetectionResult d.models index
  ([NativeCall.runDetectionCall buffer], pr.1,
    match pr.2 with
    | some e => Except.error e
    | none => Except.ok index)

/-- True when an embedded call threw. -/
def threw {α : Type} : Except JsError α → Bool
  | Except.error _ => true
  | Except.ok _ => false

/-- The list-normalized labels of a model. -/
def modelLabels (m : HotwordModel) : List String := normalizeHotwords m.hotwords

/-- The in-place mutation `add` performs on its argument. -/
def normalizeModel (m : HotwordModel) : HotwordModel :=
  { m with hotwords := Hotwords.list (normalizeHotwords m.hotwords) }

/-- Folding a list of add calls over a registry state. -/
def addAll (fsExists : String → Bool) (r : HotwordModels)
    (ms : List HotwordModel) : HotwordModels :=
  ms.foldl (fun acc m => (acc.add fsExists m).registry) r

/-- The registry invariant reestablished by every successful add. -/
def tableConsistent (r : HotwordModels) : Prop :=
  r.lookupTable = some (generateHotwordsLookupTable r.models)

-- Concrete fixtures used by witnesses and counterexamples.

/-- A one-label model declaration with a scalar hotwords field. -/
def modelA : HotwordModel := ⟨"a.umdl", some "0.5", Hotwords.single "alexa"⟩

/-- The registry after one successful add of modelA. -/
def regA : HotwordModels := (HotwordModels.fresh.add (fun _ => true) modelA).registry

/-- A model declaring an empty label list. -/
def modelE : HotwordModel := ⟨"e.umdl", none, Hotwords.list []⟩

/-- The registry after one successful add of modelE: lookupTable is the
empty array. -/
def regEmpty : HotwordModels := (HotwordModels.fresh.add (fun _ => true) modelE).registry

example : regA = ⟨[⟨"a.umdl", some "0.5", Hotwords.list ["alexa"]⟩], some ["alexa"]⟩ := rfl
example : regEmpty.lookupTable = some [] := rfl

-- Helper lemmas

theorem concatHotwords_eq_append (acc : List String) (h : Hotwords) :
    concatHotwords acc h = acc ++ normalizeHotwords h := by
  cases h <;> rfl

theorem generate_foldl_eq (models : List HotwordModel) :
    ∀ acc : List String,
      models.foldl (fun a m => concatHotwords a m.hotwords) acc =
        acc ++ (models.map modelLabels).flatten := by
  induction models with
  | nil => intro acc; simp
  | cons m ms ih =>
      intro acc
      rw [List.foldl_cons, ih, concatHotwords_eq_append]
      simp [modelLabels, List.append_assoc]

theorem generate_eq_flatten (models : List HotwordModel) :
    generateHotwordsLookupTable models = (models.map modelLabels).flatten := by
  simpa [generateHotwordsLookupTable] using generate_foldl_eq models []

theorem add_success (fsExists : String → Bool) (r : HotwordModels)
    (m : HotwordModel) (hfs : fsExists m.file = true) :
    r.add fsExists m =
      ⟨normalizeModel m,
        ⟨r.models ++ [normalizeModel m],
          some (generateHotwordsLookupTable (r.models ++ [normalizeModel m]))⟩,
        none⟩ := by
  simp [HotwordModels.add, normalizeModel, hfs]

theorem add_failure (fsExists : String → Bool) (r : HotwordModels)
    (m : HotwordModel) (hfs : fsExists m.file = false) :
    r.add fsExists m =
      ⟨normalizeModel m, r,
        some (JsError.jsError ("Model " ++ m.file ++ " does not exists."))⟩ := by
  simp [HotwordModels.add, normalizeModel, hfs]

theorem addAll_models (fsExists : String → Bool) :
    ∀ (ms : List HotwordModel) (r : HotwordModels),
      (∀ x ∈ ms, fsExists x.file = true) →
      (addAll fsExists r ms).models = r.models ++ ms.map normalizeModel
  | [], r, _ => by simp [addAll]
  | m :: ms, r, hall => by
      have hm : fsExists m.file = true := hall m (List.mem_cons_self m ms)
      have step : addAll fsExists r (m :: ms) =
          addAll fsExists ((r.add fsExists m).registry) ms := rfl
      rw [step,
        addAll_models fsExists ms _ (fun x hx => hall x (List.mem_cons_of_mem m hx)),
        add_success fsExists r m hm]
      simp

theorem addAll_consistent (fsExists : String → Bool) :
    ∀ (ms : List HotwordModel) (r : HotwordModels),
      (∀ x ∈ ms, fsExists x.file = true) → ms ≠ [] →
      tableConsistent (addAll fsExists r ms)
  | [], _, _, hne => absurd rfl hne
  | m :: ms, r, hall, _ => by
      have hm : fsExists m.file = true := hall m (List.mem_cons_self m ms)
      have step : addAll fsExists r (m :: ms) =
          addAll fsExists ((r.add fsExists m).registry) ms := rfl
      rcases eq_or_ne ms [] with h | h
      · subst h
        rw [step, add_success fsExists r m hm]
        simp [addAll, tableConsistent]
      · rw [step]
        exact addAll_consistent fsExists ms _
          (fun x hx => hall x (List.mem_cons_of_mem m hx)) h

theorem modelLabels_normalizeModel (m : HotwordModel) :
    modelLabels (normalizeModel m) = modelLabels m := rfl

-- Claim theorems

/-- C1: the claim says a detection call whose engine index is k > 0 emits a
Hotword event labelled registry.lookup(k-1).  The code instead passes the raw
index k to lookup, and lookup itself throws for every index once the table is
nonempty, so with table [alexa] and engine result 1 the call throws Index out
of bounds and emits nothing, while the claim expects Hotword(alexa), the label
at table position 0.  This theorem evaluates the code at that failing input. -/
theorem c1_hotword_offset_code_bug :
    (SnowboyDetect.runDetection ⟨⟨1, fun _ => 1⟩, regA⟩ [0]).2 =
      (([] : List DetectionEvent),
        Except.error (JsError.jsError "Index out of bounds.")) ∧
    regA.lookupTable = some ["alexa"] ∧
    regA.numHotwords = Except.ok 1 :=
  ⟨rfl, rfl, rfl⟩

/-- C2: the claim says lookup(index) returns the label when the index is in
bounds and throws exactly when it is negative or past the end.  The code tests
the TRUTHINESS of the table length, so with table [alexa] the in-bounds index 0
throws, and with the empty table the out-of-bounds index 5 returns undefined
instead of throwing.  This theorem evaluates the code at both failing inputs. -/
theorem c2_lookup_bounds_code_bug :
    regA.lookup 0 = Except.error (JsError.jsError "Index out of bounds.") ∧
    regA.lookupTable = some ["alexa"] ∧
    regEmpty.lookup 5 = Except.ok none ∧
    regEmpty.lookupTable = some ([] : List String) :=
  ⟨rfl, rfl, rfl, rfl⟩

/-- C3: for engine return values -1, -2 and 0 one detection call emits exactly
the single event error, silence and noise respectively (constructors carrying
no label payload), for every registry state, engine hotword count and buffer. -/
theorem c3_reserved_codes (reg : HotwordModels) (n : Nat) (buf : List Int) :
    (SnowboyDetect.runDetection ⟨⟨n, fun _ => -1⟩, reg⟩ buf).2 =
      ([DetectionEvent.error], Except.ok (-1)) ∧
    (SnowboyDetect.runDetection ⟨⟨n, fun _ => -2⟩, reg⟩ buf).2 =
      ([DetectionEvent.silence], Except.ok (-2)) ∧
    (SnowboyDetect.runDetection ⟨⟨n, fun _ => 0⟩, reg⟩ buf).2 =
      ([DetectionEvent.noise], Except.ok 0) :=
  ⟨rfl, rfl, rfl⟩

/-- C7: the claim says every detection call forwards the buffer, emits exactly
one event and returns the raw index.  With table [alexa] and engine result 1
the buffer is forwarded, but the lookup throws, zero events are emitted and no
index is returned, refuting exactly-one-event.  This theorem evaluates the
code at that failing input. -/
theorem c7_single_event_code_bug :
    (SnowboyDetect.runDetection ⟨⟨1, fun _ => 1⟩, regA⟩ [7]).1 =
      [NativeCall.runDetectionCall [7]] ∧
    (SnowboyDetect.runDetection ⟨⟨1, fun _ => 1⟩, regA⟩ [7]).2.1 =
      ([] : List DetectionEvent) ∧
    (SnowboyDetect.runDetection ⟨⟨1, fun _ => 1⟩, regA⟩ [7]).2.2 =
      Except.error (JsError.jsError "Index out of bounds.") :=
  ⟨rfl, rfl, rfl⟩

/-- C4: adding a model whose resource file does not exist throws the
validation error and leaves the registry unchanged: same state, hence same
model count, lookup table, modelString and sensitivityString. -/
theorem c4_add_atomic (fsExists : String → Bool) (r : HotwordModels)
    (m : HotwordModel) (hfs : fsExists m.file = false) :
    (r.add fsExists m).thrown =
      some (JsError.jsError ("Model " ++ m.file ++ " does not exists.")) ∧
    (r.add fsExists m).registry = r ∧
    (r.add fsExists m).registry.models.length = r.models.length ∧
    (r.add fsExists m).registry.lookupTable = r.lookupTable ∧
    (r.add fsExists m).registry.modelString = r.modelString ∧
    (r.add fsExists m).registry.sensitivityString = r.sensitivityString := by
  rw [add_failure fsExists r m hfs]
  exact ⟨rfl, rfl, rfl, rfl, rfl, rfl⟩

/-- Witness for C4: a concrete failed add on regA. -/
theorem c4_add_atomic_witness :
    ((fun _ => false) modelA.file = false) ∧
    ((regA.add (fun _ => false) modelA).thrown =
        some (JsError.jsError ("Model " ++ modelA.file ++ " does not exists.")) ∧
      (regA.add (fun _ => false) modelA).registry = regA ∧
      (regA.add (fun _ => false) modelA).registry.models.length = regA.models.length ∧
      (regA.add (fun _ => false) modelA).registry.lookupTable = regA.lookupTable ∧
      (regA.add (fun _ => false) modelA).registry.modelString = regA.modelString ∧
      (regA.add (fun _ => false) modelA).registry.sensitivityString =
        regA.sensitivityString) :=
  ⟨rfl, c4_add_atomic (fun _ => false) regA modelA rfl⟩

/-- Concrete engine reporting two hotwords. -/
def engineTwo : NativeEngine := ⟨2, fun _ => 0⟩

/-- Concrete engine reporting one hotword. -/
def engineOne : NativeEngine := ⟨1, fun _ => 0⟩

/-- C6: when the engine-reported hotword count differs from the registry
count, construction throws the mismatch error synchronously; the constructor
trace contains exactly one native NumHotwords call, and a detection call
performs none, so the check happens at construction only, never per call. -/
theorem c6_mismatch_fail_fast (engine : NativeEngine) (options : DetectorOptions)
    (n : Nat) (d : SnowboyDetect) (buf : List Int)
    (hn : options.models.numHotwords = Except.ok n)
    (hne : engine.numHotwords ≠ n) :
    (SnowboyDetect.construct engine options).2 =
      Except.error
        (JsError.jsError "Loaded hotwords count does not match number of hotwords defined.") ∧
    countNumHotwordsCalls (SnowboyDetect.construct engine options).1 = 1 ∧
    countNumHotwordsCalls (d.runDetection buf).1 = 0 := by
  have hc : SnowboyDetect.construct engine options =
      ([NativeCall.construct options.resource options.models.modelString,
        NativeCall.numHotwordsCall],
        Except.error
          (JsError.jsError "Loaded hotwords count does not match number of hotwords defined.")) := by
    unfold SnowboyDetect.construct
    rw [hn]
    simp [hne]
  rw [hc]
  exact ⟨rfl, rfl, rfl⟩

/-- Witness for C6: engine reporting 2 hotwords against regA, which has 1. -/
theorem c6_mismatch_fail_fast_witness :
    (regA.numHotwords = Except.ok 1) ∧ (engineTwo.numHotwords ≠ 1) ∧
    ((SnowboyDetect.construct engineTwo ⟨"res", regA, none⟩).2 =
        Except.error
          (JsError.jsError "Loaded hotwords count does not match number of hotwords defined.") ∧
      countNumHotwordsCalls (SnowboyDetect.construct engineTwo ⟨"res", regA, none⟩).1 = 1 ∧
      countNumHotwordsCalls
        (SnowboyDetect.runDetection ⟨engineOne, regA⟩ [0]).1 = 0) :=
  ⟨rfl, by decide,
    c6_mismatch_fail_fast engineTwo ⟨"res", regA, none⟩ 1 ⟨engineOne, regA⟩ [0] rfl
      (by decide)⟩

/-- Counterexample to C8: with audioGain present and equal to 0 the
constructor succeeds without ever invoking SetAudioGain, because the source
guards the call with the TRUTHINESS of the gain and 0 is falsy. -/
theorem c8_gain_zero_counterexample :
    (SnowboyDetect.construct engineOne ⟨"res", regA, some 0⟩).1 =
      [NativeCall.construct "res" regA.modelString, NativeCall.numHotwordsCall] ∧
    countSetAudioGainCalls (SnowboyDetect.construct engineOne ⟨"res", regA, some 0⟩).1 = 0 ∧
    threw (SnowboyDetect.construct engineOne ⟨"res", regA, some 0⟩).2 = false :=
  ⟨rfl, rfl, rfl⟩

/-- C8 amended: when audioGain is present and nonzero, construction invokes
SetAudioGain with exactly the provided value; when it is 0 or absent,
SetAudioGain is not invoked. -/
theorem c8_gain_amended (engine : NativeEngine) (reg : HotwordModels)
    (res : String) (g : Int) (n : Nat)
    (hn : reg.numHotwords = Except.ok n)
    (he : engine.numHotwords = n) (hg : g ≠ 0) :
    (SnowboyDetect.construct engine ⟨res, reg, some g⟩).1 =
      [NativeCall.construct res reg.modelString, NativeCall.numHotwordsCall,
        NativeCall.setAudioGain g] ∧
    (SnowboyDetect.construct engine ⟨res, reg, some g⟩).2 =
      Except.ok ⟨engine, reg⟩ ∧
    countSetAudioGainCalls (SnowboyDetect.construct engine ⟨res, reg, some 0⟩).1 = 0 ∧
    countSetAudioGainCalls (SnowboyDetect.construct engine ⟨res, reg, none⟩).1 = 0 := by
  refine ⟨?_, ?_, ?_, ?_⟩ <;>
    simp [SnowboyDetect.construct, hn, he, hg, countSetAudioGainCalls]

/-- Witness for C8 amended: gain 2 is applied, gain 0 and absence are not. -/
theorem c8_gain_amended_witness :
    (regA.numHotwords = Except.ok 1) ∧ (engineOne.numHotwords = 1) ∧ ((2 : Int) ≠ 0) ∧
    ((SnowboyDetect.construct engineOne ⟨"r2", regA, some 2⟩).1 =
        [NativeCall.construct "r2" regA.modelString, NativeCall.numHotwordsCall,
          NativeCall.setAudioGain 2] ∧
      (SnowboyDetect.construct engineOne ⟨"r2", regA, some 2⟩).2 =
        Except.ok ⟨engineOne, regA⟩ ∧
      countSetAudioGainCalls (SnowboyDetect.construct engineOne ⟨"r2", regA, some 0⟩).1 = 0 ∧
      countSetAudioGainCalls (SnowboyDetect.construct engineOne ⟨"r2", regA, none⟩).1 = 0) :=
  ⟨rfl, rfl, by decide, c8_gain_amended engineOne regA "r2" 2 1 rfl rfl (by decide)⟩

/-- Counterexample to C5: after the empty sequence of add calls the lookup
table is still undefined, so numHotwords() raises the TypeError instead of
returning 0, the sum of label counts over no models. -/
theorem c5_empty_counterexample :
    (addAll (fun _ => true) HotwordModels.fresh []).numHotwords =
      Except.error (JsError.typeError "Cannot read properties of undefined (reading length)") ∧
    ((([] : List HotwordModel)).map (fun m => (modelLabels m).length)).sum = 0 :=
  ⟨rfl, rfl⟩

/-- C5 amended: after every NONEMPTY sequence of successful add calls, the
lookup table is the concatenation, in insertion order, of each added model
label list, and numHotwords() returns its length, which is the sum of the
label counts of the added models. -/
theorem c5_table_invariant_amended (fsExists : String → Bool)
    (ms : List HotwordModel) (h1 : ms ≠ [])
    (h2 : ∀ m ∈ ms, fsExists m.file = true) :
    (addAll fsExists HotwordModels.fresh ms).lookupTable =
      some ((ms.map modelLabels).flatten) ∧
    (addAll fsExists HotwordModels.fresh ms).numHotwords =
      Except.ok ((ms.map (fun m => (modelLabels m).length)).sum) := by
  have hc := addAll_consistent fsExists ms HotwordModels.fresh h2 h1
  have hm := addAll_models fsExists ms HotwordModels.fresh h2
  rw [tableConsistent] at hc
  have htab : (addAll fsExists HotwordModels.fresh ms).lookupTable =
      some ((ms.map modelLabels).flatten) := by
    rw [hc, hm, generate_eq_flatten]
    simp [HotwordModels.fresh, List.map_map, Function.comp, modelLabels_normalizeModel]
    rw [show modelLabels ∘ normalizeModel = modelLabels from funext fun m => rfl]
  refine ⟨htab, ?_⟩
  have hnum : (addAll fsExists HotwordModels.fresh ms).numHotwords =
      Except.ok ((ms.map modelLabels).flatten).length := by
    unfold HotwordModels.numHotwords
    rw [htab]
  rw [hnum]
  simp [List.length_flatten, List.map_map, Function.comp]
  rfl

/-- Witness for C5 amended: the singleton sequence adding modelA. -/
theorem c5_table_invariant_amended_witness :
    ([modelA] ≠ ([] : List HotwordModel)) ∧
    ((addAll (fun _ => true) HotwordModels.fresh [modelA]).lookupTable =
        some (([modelA].map modelLabels).flatten) ∧
      (addAll (fun _ => true) HotwordModels.fresh [modelA]).numHotwords =
        Except.ok (([modelA].map (fun m => (modelLabels m).length)).sum)) :=
  ⟨by decide,
    c5_table_invariant_amended (fun _ => true) [modelA] (by decide)
      (by intro m hm; rfl)⟩

/-- C9: on a freshly constructed registry, numHotwords() raises the runtime
TypeError rather than returning a count, lookup(index) throws for every
index, and after one successful add numHotwords() returns the label count
of the added model, so the accessor is total only after a successful add. -/
theorem c9_fresh_accessors (index : Int) (fsExists : String → Bool)
    (m : HotwordModel)
    (hs : (HotwordModels.fresh.add fsExists m).thrown = none) :
    HotwordModels.fresh.numHotwords =
      Except.error (JsError.typeError "Cannot read properties of undefined (reading length)") ∧
    threw (HotwordModels.fresh.lookup index) = true ∧
    (HotwordModels.fresh.add fsExists m).registry.numHotwords =
      Except.ok (modelLabels m).length := by
  have hfs : fsExists m.file = true := by
    cases hb : fsExists m.file with
    | true => rfl
    | false =>
        rw [add_failure fsExists HotwordModels.fresh m hb] at hs
        exact Option.noConfusion hs
  refine ⟨rfl, ?_, ?_⟩
  · unfold HotwordModels.lookup
    by_cases h : index < 0 <;> simp [HotwordModels.fresh, h, threw]
  · rw [add_success fsExists HotwordModels.fresh m hfs]
    simp [HotwordModels.numHotwords, HotwordModels.fresh, generate_eq_flatten,
      modelLabels_normalizeModel]

/-- Witness for C9: a successful add of modelA and the index -3. -/
theorem c9_fresh_accessors_witness :
    ((HotwordModels.fresh.add (fun _ => true) modelA).thrown = none) ∧
    (HotwordModels.fresh.numHotwords =
        Except.error
          (JsError.typeError "Cannot read properties of undefined (reading length)") ∧
      threw (HotwordModels.fresh.lookup (-3)) = true ∧
      (HotwordModels.fresh.add (fun _ => true) modelA).registry.numHotwords =
        Except.ok (modelLabels modelA).length) :=
  ⟨rfl, c9_fresh_accessors (-3) (fun _ => true) modelA rfl⟩

/-- C10: add overwrites the hotwords field of the caller-supplied model with
its list-normalized form before the existence check, so even a failing add
returns the mutated model while the registry is unchanged. -/
theorem c10_argument_mutation (fsExists : String → Bool) (r : HotwordModels)
    (m : HotwordModel) (hfs : fsExists m.file = false) :
    (r.add fsExists m).model.hotwords =
      Hotwords.list (normalizeHotwords m.hotwords) ∧
    (r.add fsExists m).thrown ≠ none ∧
    (r.add fsExists m).registry = r := by
  rw [add_failure fsExists r m hfs]
  exact ⟨rfl, by simp, rfl⟩

/-- Witness for C10: a failing add of modelA, whose scalar hotwords field is
visibly rewritten to the singleton list. -/
theorem c10_argument_mutation_witness :
    ((fun _ => false) modelA.file = false) ∧
    (((HotwordModels.fresh.add (fun _ => false) modelA).model.hotwords =
        Hotwords.list (normalizeHotwords modelA.hotwords) ∧
      (HotwordModels.fresh.add (fun _ => false) modelA).thrown ≠ none ∧
      (HotwordModels.fresh.add (fun _ => false) modelA).registry =
        HotwordModels.fresh)) ∧
    Hotwords.list (normalizeHotwords modelA.hotwords) ≠ modelA.hotwords :=
  ⟨rfl, c10_argument_mutation (fun _ => false) HotwordModels.fresh modelA rfl,
    by decide⟩
